import Mathlib

/-!
Verification of the Baileyspy session/pairing lifecycle model.

This file gives a shallow embedding of the parts of the repository that the
verified properties talk about:

* `baileyspy/pairing.py`   — `PairingManager` (request / verify / complete /
  revoke / status / cleanup of pairing codes);
* `baileyspy/call_manager.py` — `CallManager.end_call` and
  `CallManager.handle_call_event` (call-duration bookkeeping);
* `baileyspy/connection.py` — `ConnectionManager` (connect, the
  authentication polling loop, the auth-status stub, `send_message`);
* `baileyspy/client.py`    — `BaileysClient.send_message` together with
  `MessageHandler.send_text_message` from `baileyspy/messages.py`.

Modelling conventions:

* Python `dict`s become association lists `List (String × α)`; assignment
  `d[k] = v` is `dictInsert` (replace in place when the key exists, append
  otherwise), which matches CPython's insertion-order-preserving update.
* Wall-clock timestamps (`datetime.now()`) and the event-loop clock
  (`asyncio.get_event_loop().time()`) are passed in explicitly as natural
  numbers counting whole seconds; `int(loop.time())` is the `loopTime`
  argument.  ISO strings in the source only wrap these instants, so the
  model stores the instants themselves.
* `random.choices('ABCDEF', k=length)` is modelled by an explicit draw
  function `pick : Nat → Fin 6` giving the index of each drawn character.
* A `raise ValueError(msg)` becomes an `Except` error; each raise site of
  the source gets its own constructor so that distinct failure messages
  stay distinguishable.
* The backend stub `_communicate_with_backend` always succeeds in the
  source (it sleeps and returns a canned success dictionary), so calls to
  it never fail in the model either.
* Operations that mutate state before raising (the lazy-expiry flip inside
  `verify_pairing_code`) return the mutated manager next to the error, so
  every operation has type `… → Except E R × Manager`.
-/

namespace Baileyspy

/-! ## Python dictionaries as association lists -/

def dictFind? {α : Type} (d : List (String × α)) (k : String) : Option α :=
  match d with
  | [] => none
  | (k2, v) :: rest => if k2 = k then some v else dictFind? rest k

def dictContains {α : Type} (d : List (String × α)) (k : String) : Bool :=
  (dictFind? d k).isSome

def dictInsert {α : Type} (d : List (String × α)) (k : String) (v : α) :
    List (String × α) :=
  match d with
  | [] => [(k, v)]
  | (k2, v2) :: rest =>
    if k2 = k then (k, v) :: rest else (k2, v2) :: dictInsert rest k v

/-! ## PairingManager data model (`baileyspy/pairing.py`) -/

/-- The `auth_tokens` dictionary built in `complete_pairing`. -/
structure AuthTokens where
  auth_token : String
  device_id : String
  phone_number : String
  deriving DecidableEq, Repr

/-- One entry of `PairingManager.pairing_codes`. -/
structure PairingRequest where
  pairing_id : String
  number : String
  code : String
  status : String
  requested_at : Nat
  expires_at : Nat
  verified_at : Option Nat := none
  completed_at : Option Nat := none
  revoked_at : Option Nat := none
  auth_tokens : Option AuthTokens := none
  deriving DecidableEq, Repr

/-- One entry of `PairingManager.active_pairings`. -/
structure ActivePairing where
  device_id : String
  phone_number : String
  paired_at : Nat
  auth_token : String
  pairing_id : String
  deriving DecidableEq, Repr

/-- The mutable state of a `PairingManager`. -/
structure PairingManager where
  pairing_codes : List (String × PairingRequest) := []
  active_pairings : List (String × ActivePairing) := []
  is_pairing_active : Bool := false
  deriving DecidableEq, Repr

/-- One constructor per `raise ValueError(...)` site of `pairing.py`:
`emptyNumber` = "Phone number cannot be empty",
`shortNumber` = "Phone number appears to be too short",
`invalidPairingCode msg` = the two raises inside `_validate_pairing_code`,
`notFound` = "Pairing request ... not found",
`expired` = "Pairing code has expired",
`mismatch` = "Invalid pairing code" (the comparison failure in
`verify_pairing_code`),
`invalidState` = "Pairing code must be verified before completion". -/
inductive PairingError where
  | emptyNumber
  | shortNumber
  | invalidPairingCode (msg : String)
  | notFound (pairing_id : String)
  | expired
  | mismatch
  | invalidState
  deriving DecidableEq, Repr

/-! ## PairingManager operations -/

/-- `valid_chars = set('ABCDEF')` in `_validate_pairing_code`. -/
def validChars : List Char := ['A', 'B', 'C', 'D', 'E', 'F']

/-- `code.replace('-', '').upper()`: drop hyphens, then upper-case. -/
def cleanPairingCode (code : String) : String :=
  String.mk ((code.data.filter (fun c => c != '-')).map Char.toUpper)

/-- `PairingManager._validate_pairing_code`.  Note that the length check
`len(code) < 4` runs on the raw code, before hyphens are stripped. -/
def validatePairingCode (code : String) : Except PairingError String :=
  if code.length < 4 then
    .error (.invalidPairingCode "Pairing code must be at least 4 characters")
  else
    let cleanCode := cleanPairingCode code
    if cleanCode.data.all (fun c => validChars.contains c) then
      .ok cleanCode
    else
      .error (.invalidPairingCode "Pairing code must contain only characters A-F")

/-- `characters = 'ABCDEF'` in `_generate_pairing_code`. -/
def characters : List Char := ['A', 'B', 'C', 'D', 'E', 'F']

/-- `PairingManager._generate_pairing_code`; `pick i` is the index drawn by
`random.choices` for position `i`. -/
def generatePairingCode (pick : Nat → Fin 6) (length : Nat := 8)
    (formatWithHyphen : Bool := false) : String :=
  let code := String.mk ((List.range length).map fun i =>
    characters.get ⟨(pick i).val, (pick i).isLt⟩)
  if formatWithHyphen ∧ 4 ≤ length then
    String.mk (code.data.take 4) ++ "-" ++ String.mk (code.data.drop 4)
  else
    code

/-- `PairingManager._calculate_expiry` (seconds since epoch). -/
def calculateExpiry (now : Nat) (minutes : Nat := 60) : Nat :=
  now + minutes * 60

/-- Result dictionary of `request_pairing_code`. -/
structure RequestResult where
  status : String
  pairing_id : String
  number : String
  pairing_code : String
  timestamp : Nat
  deriving DecidableEq, Repr

/-- `PairingManager.request_pairing_code`.  `now` is `datetime.now()`,
`loopTime` is `int(asyncio.get_event_loop().time())`.  The guard
`not number or not number.strip()` holds exactly when every character of
`number` is whitespace (vacuously for the empty string), which is how it
is stated here.  The `if not code:` branch treats a falsy code — `None`
or the empty string alike — as absent and generates one; only a non-empty
custom code is validated.  The source keeps the raw custom code (the
cleaned value returned by validation is discarded) and tracks the request
under the id `pair_<loopTime>`. -/
def requestPairingCode (m : PairingManager) (number : String)
    (codeArg : Option String) (now loopTime : Nat) (pick : Nat → Fin 6) :
    Except PairingError RequestResult × PairingManager :=
  if number.data.all (fun c => c.isWhitespace) then (.error .emptyNumber, m)
  else
    let cleanNumber := String.mk (number.data.filter Char.isDigit)
    if cleanNumber.length < 8 then (.error .shortNumber, m)
    else
      let codeRes : Except PairingError String :=
        match codeArg with
        | none => .ok (generatePairingCode pick)
        | some c =>
          if c = "" then .ok (generatePairingCode pick)
          else (validatePairingCode c).map fun _ => c
      match codeRes with
      | .error e => (.error e, m)
      | .ok code =>
        let pairing_id := "pair_" ++ Nat.repr loopTime
        let req : PairingRequest :=
          { pairing_id := pairing_id, number := cleanNumber, code := code,
            status := "requested", requested_at := now,
            expires_at := calculateExpiry now }
        (.ok { status := "requested", pairing_id := pairing_id,
               number := cleanNumber, pairing_code := code, timestamp := now },
         { m with pairing_codes := dictInsert m.pairing_codes pairing_id req })

/-- Result dictionary of `verify_pairing_code`. -/
structure VerifyResult where
  status : String
  pairing_id : String
  number : String
  timestamp : Nat
  deriving DecidableEq, Repr

/-- `PairingManager.verify_pairing_code`.  The expiry flip is persisted even
though an error is raised; validation failures and mismatches leave the
store untouched.  The stored status is never consulted. -/
def verifyPairingCode (m : PairingManager) (pairing_id code : String)
    (now : Nat) : Except PairingError VerifyResult × PairingManager :=
  match dictFind? m.pairing_codes pairing_id with
  | none => (.error (.notFound pairing_id), m)
  | some info =>
    if info.expires_at < now then
      (.error .expired,
       { m with
         pairing_codes :=
           dictInsert m.pairing_codes pairing_id
             ({ info with status := "expired" }) })
    else
      match validatePairingCode code with
      | .error e => (.error e, m)
      | .ok provided =>
        let expected := cleanPairingCode info.code
        if provided ≠ expected then (.error .mismatch, m)
        else
          (.ok { status := "verified", pairing_id := pairing_id,
                 number := info.number, timestamp := now },
           { m with
             pairing_codes :=
               dictInsert m.pairing_codes pairing_id
                 ({ info with status := "verified", verified_at := some now }) })

/-- Result dictionary of `complete_pairing`. -/
structure CompleteResult where
  status : String
  pairing_id : String
  device_id : String
  phone_number : String
  auth_tokens : AuthTokens
  timestamp : Nat
  deriving DecidableEq, Repr

/-- `PairingManager.complete_pairing`. -/
def completePairing (m : PairingManager) (pairing_id : String)
    (now loopTime : Nat) : Except PairingError CompleteResult × PairingManager :=
  match dictFind? m.pairing_codes pairing_id with
  | none => (.error (.notFound pairing_id), m)
  | some info =>
    if info.status ≠ "verified" then (.error .invalidState, m)
    else
      let tokens : AuthTokens :=
        { auth_token := "auth_" ++ Nat.repr loopTime,
          device_id := "device_" ++ Nat.repr loopTime,
          phone_number := info.number }
      (.ok { status := "completed", pairing_id := pairing_id,
             device_id := tokens.device_id, phone_number := info.number,
             auth_tokens := tokens, timestamp := now },
       { m with
         pairing_codes :=
           dictInsert m.pairing_codes pairing_id
             ({ info with status := "completed", completed_at := some now,
                          auth_tokens := some tokens }),
         active_pairings :=
           dictInsert m.active_pairings tokens.device_id
             ({ device_id := tokens.device_id, phone_number := info.number,
                paired_at := now, auth_token := tokens.auth_token,
                pairing_id := pairing_id }),
         is_pairing_active := true })

/-- `PairingManager.get_pairing_status`: lazily flips `requested`/`verified`
requests past their expiry to `expired`, persisting the flip. -/
def getPairingStatus (m : PairingManager) (pairing_id : String) (now : Nat) :
    Except PairingError PairingRequest × PairingManager :=
  match dictFind? m.pairing_codes pairing_id with
  | none => (.error (.notFound pairing_id), m)
  | some info =>
    if (info.status = "requested" ∨ info.status = "verified") ∧
        info.expires_at < now then
      (.ok { info with status := "expired" },
       { m with
         pairing_codes :=
           dictInsert m.pairing_codes pairing_id
             ({ info with status := "expired" }) })
    else
      (.ok info, m)

/-- Result dictionary of `revoke_pairing`. -/
structure RevokeResult where
  status : String
  pairing_id : String
  number : String
  timestamp : Nat
  deriving DecidableEq, Repr

/-- `PairingManager.revoke_pairing`: unconditional transition to `revoked`
for any known id, regardless of the current status. -/
def revokePairing (m : PairingManager) (pairing_id : String) (now : Nat) :
    Except PairingError RevokeResult × PairingManager :=
  match dictFind? m.pairing_codes pairing_id with
  | none => (.error (.notFound pairing_id), m)
  | some info =>
    (.ok { status := "revoked", pairing_id := pairing_id,
           number := info.number, timestamp := now },
     { m with
       pairing_codes :=
         dictInsert m.pairing_codes pairing_id
           ({ info with status := "revoked", revoked_at := some now }) })

/-- `PairingManager.cleanup_expired_codes`. -/
def cleanupExpiredCodes (m : PairingManager) (now : Nat) : PairingManager :=
  { m with
    pairing_codes := m.pairing_codes.map fun kv =>
      if (kv.2.status = "requested" ∨ kv.2.status = "verified") ∧
          kv.2.expires_at < now then
        (kv.1, { kv.2 with status := "expired" })
      else
        kv }

/-! ## CallManager (`baileyspy/call_manager.py`) -/

/-- One entry of `CallManager.active_calls`.  Timestamps are wall-clock
seconds; `duration` is the signed whole-second difference the source
computes with `int((end - start).total_seconds())`. -/
structure CallRecord where
  call_id : String
  jid : String
  status : String
  start_time : Nat
  call_type : String := "voice"
  answered_at : Option Nat := none
  ended_at : Option Nat := none
  rejected_at : Option Nat := none
  duration : Option Int := none
  is_incoming : Bool := false
  deriving DecidableEq, Repr

/-- The mutable state of a `CallManager`. -/
structure CallManager where
  active_calls : List (String × CallRecord) := []
  is_call_active : Bool := false
  deriving DecidableEq, Repr

/-- The raise site "Call ... not found" shared by the call operations. -/
inductive CallError where
  | notFound (call_id : String)
  deriving DecidableEq, Repr

/-- Result dictionary of `end_call`. -/
structure EndCallResult where
  status : String
  call_id : String
  jid : String
  duration : Int
  timestamp : Nat
  deriving DecidableEq, Repr

/-- `CallManager.end_call`.  The source computes the duration from
`call_info['start_time']`, never from `answered_at`. -/
def endCall (m : CallManager) (call_id : String) (now : Nat) :
    Except CallError EndCallResult × CallManager :=
  match dictFind? m.active_calls call_id with
  | none => (.error (.notFound call_id), m)
  | some info =>
    let duration : Int := (now : Int) - (info.start_time : Int)
    (.ok { status := "ended", call_id := call_id, jid := info.jid,
           duration := duration, timestamp := now },
     { m with
       active_calls :=
         dictInsert m.active_calls call_id
           ({ info with status := "ended", ended_at := some now,
                        duration := some duration }),
       is_call_active := false })

/-- `CallManager.handle_call_event`.  Only the `call_ended` event computes
the duration from `answered_at`, falling back to `start_time` when the
call was never answered. -/
def handleCallEvent (m : CallManager) (event_type : String)
    (call_id? : Option String) (now : Nat) : CallManager :=
  match call_id? with
  | none => m
  | some call_id =>
    match dictFind? m.active_calls call_id with
    | none => m
    | some info =>
      if event_type = "call_accepted" then
        { m with
          active_calls :=
            dictInsert m.active_calls call_id
              ({ info with status := "in_progress", answered_at := some now }),
          is_call_active := true }
      else if event_type = "call_rejected" then
        { m with
          active_calls :=
            dictInsert m.active_calls call_id
              ({ info with status := "rejected", rejected_at := some now }) }
      else if event_type = "call_ended" then
        let startRef : Nat :=
          match info.answered_at with
          | some a => a
          | none => info.start_time
        let duration : Int := (now : Int) - (startRef : Int)
        { m with
          active_calls :=
            dictInsert m.active_calls call_id
              ({ info with status := "ended", ended_at := some now,
                           duration := some duration }),
          is_call_active := false }
      else
        m

/-! ## ConnectionManager (`baileyspy/connection.py`) -/

/-- The session file contents handled by `_load_auth_data` /
`_is_auth_data_valid`; the Python dictionary may lack keys, hence the
`Option` fields. -/
structure AuthData where
  phone_number : Option String := none
  session_id : Option String := none
  auth_token : Option String := none
  device_id : Option String := none
  authenticated_at : Option Nat := none
  deriving DecidableEq, Repr

/-- `ConnectionManager._is_auth_data_valid`: the three required fields must
be present. -/
def isAuthDataValid (a : AuthData) : Bool :=
  a.phone_number.isSome && a.session_id.isSome && a.auth_token.isSome

/-- `ConnectionManager._load_auth_data`: `none` models a missing session
file; invalid data is discarded. -/
def loadAuthData (file : Option AuthData) : Option AuthData :=
  match file with
  | none => none
  | some a => if isAuthDataValid a then some a else none

/-- The dictionary returned by `_check_auth_status`. -/
structure AuthStatus where
  authenticated : Bool
  error : Option String
  deriving DecidableEq, Repr

/-- `ConnectionManager._check_auth_status`: the stub always reports
`authenticated: False` with no error. -/
def checkAuthStatus : AuthStatus :=
  { authenticated := false, error := none }

/-- The dictionary returned by `_wait_for_authentication`. -/
structure AuthWaitResult where
  success : Bool
  error : Option String := none
  phone_number : Option String := none
  session_id : Option String := none
  deriving DecidableEq, Repr

/-- `ConnectionManager._wait_for_authentication`: poll every 2 time units
while `elapsed < timeout`; each iteration sleeps 2 units and then queries
`checkAuthStatus`.  The model advances time exactly by the sleeps. -/
def waitForAuthentication (timeout elapsed : Nat) (session_id : Option String) :
    AuthWaitResult :=
  if elapsed < timeout then
    let auth_status := checkAuthStatus
    if auth_status.authenticated then
      { success := true, phone_number := none, session_id := session_id }
    else if auth_status.error.isSome then
      { success := false, error := auth_status.error }
    else
      waitForAuthentication timeout (elapsed + 2) session_id
  else
    { success := false, error := some "Authentication timeout" }
termination_by timeout - elapsed
decreasing_by omega

/-- The dictionary returned by `connect` and its helpers. -/
structure ConnectResult where
  status : String
  message : Option String := none
  phone_number : Option String := none
  session_id : Option String := none
  qr_code : Option String := none
  requires_auth : Bool := false
  deriving DecidableEq, Repr

/-- `ConnectionManager._generate_qr_code`. -/
def generateQrCode (session_id : String) (pairing_code : Option String) :
    String :=
  "1@" ++ session_id ++ "," ++ pairing_code.getD "AAAAAAAA"

/-- `ConnectionManager._initialize_connection`; `store` models the contents
of `sessions/<session_id>/auth.json` (`none` = file absent). -/
def initializeConnection (store : Option AuthData) (session_id : String) :
    ConnectResult :=
  match loadAuthData store with
  | some a =>
    { status := "connected", phone_number := a.phone_number,
      session_id := some session_id }
  | none =>
    { status := "qr_required", requires_auth := true,
      qr_code := some (generateQrCode session_id none) }

/-- `ConnectionManager._handle_authentication`. -/
def handleAuthentication (session_id pairing_code : String)
    (qr_timeout : Nat) : ConnectResult :=
  let _qr := generateQrCode session_id (some pairing_code)
  let auth := waitForAuthentication qr_timeout 0 (some session_id)
  if auth.success then
    { status := "connected", phone_number := auth.phone_number,
      session_id := some session_id }
  else
    { status := "auth_failed",
      message := some (auth.error.getD "Authentication failed") }

/-- `ConnectionManager.connect`. -/
def connect (store : Option AuthData) (session_id pairing_code : String)
    (qr_timeout : Nat) : ConnectResult :=
  let connection_result := initializeConnection store session_id
  if connection_result.requires_auth then
    handleAuthentication session_id pairing_code qr_timeout
  else
    connection_result

/-! ## send_message at both layers (`connection.py`, `client.py`,
`messages.py`) -/

/-- The canned success dictionary of `_communicate_with_backend`. -/
structure SendResult where
  status : String
  message_id : String
  timestamp : Nat
  deriving DecidableEq, Repr

/-- `ConnectionManager._communicate_with_backend`: always succeeds. -/
def communicateWithBackend (now : Nat) : SendResult :=
  { status := "success", message_id := "msg_" ++ Nat.repr now,
    timestamp := now }

/-- Failure raised by `BaileysClient.send_message`:
`ConnectionError("Not connected to WhatsApp")`. -/
inductive ConnError where
  | notConnected
  deriving DecidableEq, Repr

/-- The in-memory connection state of a `ConnectionManager`. -/
structure ConnState where
  is_authenticated : Bool := false
  session_id : Option String := none
  deriving DecidableEq, Repr

/-- `ConnectionManager.send_message`: the source performs no
authentication or connection check whatsoever; it forwards to
`_communicate_with_backend` and returns the result unchanged. -/
def sendMessageConn (st : ConnState) (jid message message_type : String)
    (now : Nat) : Except ConnError SendResult :=
  let _ := st
  let _ := jid
  let _ := message
  let _ := message_type
  .ok (communicateWithBackend now)

/-- The connection flag of a `BaileysClient`. -/
structure ClientState where
  is_connected : Bool := false
  deriving DecidableEq, Repr

/-- The dictionary returned by `MessageHandler.send_text_message`. -/
structure ClientSendResult where
  status : String
  message_id : String
  timestamp : Nat
  jid : String
  content : String
  deriving DecidableEq, Repr

/-- `MessageHandler.send_text_message`: forwards through the connection
manager, then builds a fresh `sent` dictionary around the returned
message id; the transport result is not passed through unchanged. -/
def sendTextMessage (jid message : String) (conn : ConnState) (now : Nat) :
    Except ConnError ClientSendResult :=
  match sendMessageConn conn jid message "text" now with
  | .error e => .error e
  | .ok result =>
    .ok { status := "sent", message_id := result.message_id,
          timestamp := now, jid := jid, content := message }

/-- `BaileysClient.send_message`: the only layer with a `NotConnected`
check (`self.is_connected`). -/
def clientSendMessage (c : ClientState) (conn : ConnState)
    (jid message : String) (now : Nat) : Except ConnError ClientSendResult :=
  if c.is_connected then sendTextMessage jid message conn now
  else .error .notConnected

/-! ## Fixed inputs used by concrete witnesses -/

instance {ε α : Type} [DecidableEq ε] [DecidableEq α] :
    DecidableEq (Except ε α) := fun a b =>
  match a, b with
  | .ok x, .ok y =>
    if h : x = y then .isTrue (by rw [h])
    else .isFalse (by intro hc; exact h (Except.ok.inj hc))
  | .error x, .error y =>
    if h : x = y then .isTrue (by rw [h])
    else .isFalse (by intro hc; exact h (Except.error.inj hc))
  | .ok _, .error _ => .isFalse (by intro hc; exact Except.noConfusion hc)
  | .error _, .ok _ => .isFalse (by intro hc; exact Except.noConfusion hc)

/-- A fixed random draw: every position picks index 0, that is `'A'`. -/
def pick0 : Nat → Fin 6 := fun _ => ⟨0, by omega⟩

/-- A concrete request in status `verified`. -/
def reqVerified : PairingRequest :=
  { pairing_id := "pair_9", number := "12345678", code := "ABCD",
    status := "verified", requested_at := 0, expires_at := 3600,
    verified_at := some 10 }

/-- A manager tracking exactly `reqVerified` under `pair_9`. -/
def mgrVerified : PairingManager :=
  { pairing_codes := [("pair_9", reqVerified)] }

/-- A concrete request in status `completed`. -/
def reqCompleted : PairingRequest :=
  { pairing_id := "pair_3", number := "12345678", code := "ABCD",
    status := "completed", requested_at := 0, expires_at := 3600 }

/-- A manager tracking exactly `reqCompleted` under `pair_3`. -/
def mgrCompleted : PairingManager :=
  { pairing_codes := [("pair_3", reqCompleted)] }

/-- A concrete request in status `revoked`. -/
def reqRevoked : PairingRequest :=
  { pairing_id := "pair_5", number := "12345678", code := "ABCD",
    status := "revoked", requested_at := 0, expires_at := 3600,
    revoked_at := some 10 }

/-- A manager tracking exactly `reqRevoked` under `pair_5`. -/
def mgrRevoked : PairingManager :=
  { pairing_codes := [("pair_5", reqRevoked)] }

/-- The concrete request created by
`requestPairingCode {} "15551234567" (some "ab-cd") 0 7 pick0`. -/
def reqRequested : PairingRequest :=
  { pairing_id := "pair_7", number := "15551234567", code := "ab-cd",
    status := "requested", requested_at := 0, expires_at := 3600 }

/-- The manager state after that request. -/
def mgrRequested : PairingManager :=
  { pairing_codes := [("pair_7", reqRequested)] }

/-- A concrete request in status `requested` that is already past its
expiry. -/
def reqStale : PairingRequest :=
  { pairing_id := "pair_2", number := "12345678", code := "ABCD",
    status := "requested", requested_at := 0, expires_at := 60 }

/-- A manager tracking exactly `reqStale` under `pair_2`. -/
def mgrStale : PairingManager :=
  { pairing_codes := [("pair_2", reqStale)] }

/-- A call that started at 0, was answered at 5 and is still in progress. -/
def exampleCall : CallRecord :=
  { call_id := "call_1", jid := "friend@s.whatsapp.net",
    status := "in_progress", start_time := 0, answered_at := some 5 }

/-- A call manager tracking exactly `exampleCall`. -/
def exampleCallManager : CallManager :=
  { active_calls := [("call_1", exampleCall)] }

/-! ## Dictionary lemmas -/

theorem dictFind?_insert {α : Type} (d : List (String × α)) (k k2 : String)
    (v : α) :
    dictFind? (dictInsert d k v) k2 =
      if k = k2 then some v else dictFind? d k2 := by
  induction d with
  | nil =>
    by_cases h : k = k2 <;> simp [dictInsert, dictFind?, h]
  | cons hd tl ih =>
    obtain ⟨ka, va⟩ := hd
    by_cases h1 : ka = k
    · subst h1
      by_cases h2 : ka = k2 <;> simp [dictInsert, dictFind?, h2]
    · by_cases h2 : ka = k2
      · subst h2
        have : ¬ k = ka := fun h => h1 h.symm
        simp [dictInsert, dictFind?, h1, this]
      · simp [dictInsert, dictFind?, h1, h2, ih]

theorem dictFind?_insert_self {α : Type} (d : List (String × α)) (k : String)
    (v : α) : dictFind? (dictInsert d k v) k = some v := by
  simp [dictFind?_insert]

theorem dictFind?_insert_ne {α : Type} (d : List (String × α)) (k k2 : String)
    (v : α) (h : k ≠ k2) :
    dictFind? (dictInsert d k v) k2 = dictFind? d k2 := by
  simp [dictFind?_insert, h]

theorem dictInsert_length {α : Type} (d : List (String × α)) (k : String)
    (v : α) :
    (dictInsert d k v).length =
      if dictContains d k then d.length else d.length + 1 := by
  induction d with
  | nil => simp [dictInsert, dictContains, dictFind?]
  | cons hd tl ih =>
    obtain ⟨ka, va⟩ := hd
    by_cases h : ka = k
    · simp [dictInsert, dictContains, dictFind?, h]
    · have hstep : dictFind? ((ka, va) :: tl) k = dictFind? tl k := by
        simp [dictFind?, h]
      simp only [dictInsert, if_neg h, List.length_cons, ih, dictContains, hstep]
      by_cases hc : (dictFind? tl k).isSome <;> simp [hc]

/-! ## Injectivity of the decimal representation used for generated ids

`request_pairing_code`, `complete_pairing` and the backend stub build
identifiers of the shape `prefix + str(int(t))`; this section proves that
`Nat.repr` (the model of `str` on a nonnegative `int`) is injective, so
such ids collide exactly when the underlying integer instants do. -/

/-- Structural version of the decimal digits of `n`, most significant
first. -/
def decDigits (n : Nat) : List Char :=
  if _h : n < 10 then [Nat.digitChar n]
  else decDigits (n / 10) ++ [Nat.digitChar (n % 10)]
termination_by n
decreasing_by exact Nat.div_lt_self (by omega) (by omega)

theorem decDigits_of_lt (n : Nat) (h : n < 10) :
    decDigits n = [Nat.digitChar n] := by
  rw [decDigits, dif_pos h]

theorem decDigits_of_ge (n : Nat) (h : ¬ n < 10) :
    decDigits n = decDigits (n / 10) ++ [Nat.digitChar (n % 10)] := by
  rw [decDigits]
  exact dif_neg h

theorem decDigits_ne_nil (n : Nat) : decDigits n ≠ [] := by
  rw [decDigits]
  split <;> simp

theorem toDigitsCore_eq_decDigits (fuel : Nat) :
    ∀ (n : Nat) (acc : List Char), n < fuel →
      Nat.toDigitsCore 10 fuel n acc = decDigits n ++ acc := by
  induction fuel with
  | zero => intro n acc h; omega
  | succ f ih =>
    intro n acc h
    rw [Nat.toDigitsCore]
    by_cases h10 : n / 10 = 0
    · have hdm := Nat.div_add_mod n 10
      have hmod := Nat.mod_lt n (show 0 < 10 by omega)
      have hn : n < 10 := by omega
      rw [if_pos h10, decDigits_of_lt n hn, Nat.mod_eq_of_lt hn]
      simp
    · have hge : 10 ≤ n := by
        by_contra hlt
        exact h10 (Nat.div_eq_of_lt (by omega))
      have hlt2 : n / 10 < f := by
        have := Nat.div_lt_self (show 0 < n by omega) (show 1 < 10 by omega)
        omega
      rw [if_neg h10, ih (n / 10) _ hlt2,
        decDigits_of_ge n (show ¬ n < 10 by omega)]
      simp

theorem toDigits_eq_decDigits (n : Nat) : Nat.toDigits 10 n = decDigits n := by
  have h := toDigitsCore_eq_decDigits (n + 1) n [] (by omega)
  simpa [Nat.toDigits] using h

theorem digitChar_inj_of_lt (a b : Nat) (ha : a < 10) (hb : b < 10)
    (h : Nat.digitChar a = Nat.digitChar b) : a = b := by
  have key : ∀ x y : Fin 10, Nat.digitChar x.val = Nat.digitChar y.val → x = y := by
    decide
  exact congrArg Fin.val (key ⟨a, ha⟩ ⟨b, hb⟩ h)

theorem decDigits_getLast? (n : Nat) :
    (decDigits n).getLast? = some (Nat.digitChar (n % 10)) := by
  rw [decDigits]
  split
  · next h => rw [Nat.mod_eq_of_lt h]; rfl
  · exact List.getLast?_concat _

theorem decDigits_dropLast (n : Nat) :
    (decDigits n).dropLast = if n < 10 then [] else decDigits (n / 10) := by
  rw [decDigits]
  split <;> simp_all

theorem decDigits_inj : ∀ m n : Nat, decDigits m = decDigits n → m = n := by
  intro m
  induction m using Nat.strong_induction_on with
  | _ m ih =>
    intro n h
    have hlast := congrArg List.getLast? h
    rw [decDigits_getLast?, decDigits_getLast?] at hlast
    have hmod : m % 10 = n % 10 :=
      digitChar_inj_of_lt _ _ (Nat.mod_lt _ (by omega)) (Nat.mod_lt _ (by omega))
        (Option.some.inj hlast)
    have hdrop := congrArg List.dropLast h
    rw [decDigits_dropLast, decDigits_dropLast] at hdrop
    by_cases hm : m < 10
    · by_cases hn : n < 10
      · rw [Nat.mod_eq_of_lt hm, Nat.mod_eq_of_lt hn] at hmod
        exact hmod
      · rw [if_pos hm, if_neg hn] at hdrop
        exact absurd hdrop.symm (decDigits_ne_nil _)
    · by_cases hn : n < 10
      · rw [if_neg hm, if_pos hn] at hdrop
        exact absurd hdrop (decDigits_ne_nil _)
      · rw [if_neg hm, if_neg hn] at hdrop
        have hdiv : m / 10 = n / 10 :=
          ih (m / 10) (Nat.div_lt_self (by omega) (by omega)) _ hdrop
        have h1 := Nat.div_add_mod m 10
        have h2 := Nat.div_add_mod n 10
        omega

theorem natRepr_inj (m n : Nat) (h : Nat.repr m = Nat.repr n) : m = n := by
  apply decDigits_inj
  rw [← toDigits_eq_decDigits, ← toDigits_eq_decDigits]
  have hd := congrArg String.data h
  simpa [Nat.repr, List.asString] using hd

theorem prefixed_repr_inj (p : String) (t1 t2 : Nat)
    (h : p ++ Nat.repr t1 = p ++ Nat.repr t2) : t1 = t2 := by
  apply natRepr_inj
  apply String.ext
  have hd := congrArg String.data h
  rw [String.data_append, String.data_append] at hd
  exact List.append_cancel_left hd

/-! ## Lemmas about code validation and generation -/

theorem validatePairingCode_ok_val (code u : String)
    (h : validatePairingCode code = .ok u) : u = cleanPairingCode code := by
  unfold validatePairingCode at h
  split at h
  · exact absurd h (by simp)
  · dsimp only at h
    split at h
    · exact (Except.ok.inj h).symm
    · exact absurd h (by simp)

theorem mem_characters_facts (c : Char) (hc : c ∈ characters) :
    (c != '-') = true ∧ c.toUpper = c ∧ validChars.contains c = true := by
  fin_cases hc <;> exact ⟨by decide, by decide, by decide⟩

theorem filter_map_id_of_facts (l : List Char)
    (h : ∀ c ∈ l, (c != '-') = true ∧ c.toUpper = c) :
    (l.filter (fun c => c != '-')).map Char.toUpper = l := by
  induction l with
  | nil => rfl
  | cons hd tl ih =>
    have hhd := h hd (by simp)
    have htl : ∀ c ∈ tl, (c != '-') = true ∧ c.toUpper = c := fun c hc =>
      h c (by simp [hc])
    simp [List.filter, hhd.1, hhd.2, ih htl]

theorem generatePairingCode_data (pick : Nat → Fin 6) :
    (generatePairingCode pick).data =
      (List.range 8).map fun i =>
        characters.get ⟨(pick i).val, (pick i).isLt⟩ := rfl

theorem generatePairingCode_mem (pick : Nat → Fin 6) :
    ∀ c ∈ (generatePairingCode pick).data, c ∈ characters := by
  intro c hc
  rw [generatePairingCode_data] at hc
  obtain ⟨i, _, rfl⟩ := List.mem_map.mp hc
  exact characters.get_mem _ _

theorem generatePairingCode_length (pick : Nat → Fin 6) :
    (generatePairingCode pick).length = 8 := by
  have h := generatePairingCode_data pick
  simp [String.length, h]

theorem cleanPairingCode_generate (pick : Nat → Fin 6) :
    cleanPairingCode (generatePairingCode pick) = generatePairingCode pick := by
  have hfacts : ∀ c ∈ (generatePairingCode pick).data,
      (c != '-') = true ∧ c.toUpper = c := by
    intro c hc
    have h := mem_characters_facts c (generatePairingCode_mem pick c hc)
    exact ⟨h.1, h.2.1⟩
  unfold cleanPairingCode
  rw [filter_map_id_of_facts _ hfacts]

theorem validatePairingCode_generate (pick : Nat → Fin 6) :
    validatePairingCode (generatePairingCode pick) =
      .ok (generatePairingCode pick) := by
  have hall : ((cleanPairingCode (generatePairingCode pick)).data.all
      fun c => validChars.contains c) = true := by
    rw [cleanPairingCode_generate]
    apply List.all_eq_true.mpr
    intro c hc
    exact (mem_characters_facts c (generatePairingCode_mem pick c hc)).2.2
  unfold validatePairingCode
  rw [if_neg (by rw [generatePairingCode_length]; omega)]
  dsimp only
  rw [if_pos hall, cleanPairingCode_generate]

/-! ## Lemmas about verification and polling -/

theorem verifyPairingCode_ok (m : PairingManager) (pid code : String)
    (now : Nat) (info : PairingRequest)
    (hfind : dictFind? m.pairing_codes pid = some info)
    (hexp : ¬ info.expires_at < now)
    (hval : validatePairingCode code = .ok (cleanPairingCode info.code)) :
    verifyPairingCode m pid code now =
      (.ok { status := "verified", pairing_id := pid, number := info.number,
             timestamp := now },
       { m with
         pairing_codes :=
           dictInsert m.pairing_codes pid
             ({ info with status := "verified", verified_at := some now }) }) := by
  unfold verifyPairingCode
  simp [hfind, hexp, hval]

theorem requestPairingCode_ok_spec (m : PairingManager) (number : String)
    (codeArg : Option String) (now loopT : Nat) (pick : Nat → Fin 6)
    (r : RequestResult) (m2 : PairingManager)
    (h : requestPairingCode m number codeArg now loopT pick = (.ok r, m2)) :
    r.status = "requested" ∧
    r.pairing_id = "pair_" ++ Nat.repr loopT ∧
    r.timestamp = now ∧
    validatePairingCode r.pairing_code = .ok (cleanPairingCode r.pairing_code) ∧
    m2 = { m with
           pairing_codes :=
             dictInsert m.pairing_codes ("pair_" ++ Nat.repr loopT)
               ({ pairing_id := "pair_" ++ Nat.repr loopT, number := r.number,
                  code := r.pairing_code, status := "requested",
                  requested_at := now, expires_at := calculateExpiry now }) } := by
  unfold requestPairingCode at h
  split at h
  · exact absurd h (by simp)
  · dsimp only at h
    split at h
    · exact absurd h (by simp)
    · split at h
      · exact absurd h (by simp)
      · next code heq =>
        rw [Prod.mk.injEq] at h
        obtain ⟨hr, hm⟩ := h
        have hr2 := (Except.ok.inj hr).symm
        subst hr2
        subst hm
        refine ⟨rfl, rfl, rfl, ?_, rfl⟩
        cases codeArg with
        | none =>
          have hc := Except.ok.inj heq
          dsimp only
          rw [← hc, cleanPairingCode_generate]
          exact validatePairingCode_generate pick
        | some c =>
          have heq2 : (if c = "" then Except.ok (generatePairingCode pick)
              else Except.map (fun _ => c) (validatePairingCode c)) =
              Except.ok code := heq
          by_cases hc0 : c = ""
          · rw [if_pos hc0] at heq2
            have hc := Except.ok.inj heq2
            dsimp only
            rw [← hc, cleanPairingCode_generate]
            exact validatePairingCode_generate pick
          · rw [if_neg hc0] at heq2
            cases hv : validatePairingCode c with
            | error e =>
              rw [hv] at heq2
              exact absurd heq2 (by simp [Except.map])
            | ok u =>
              rw [hv] at heq2
              have hc : c = code := by simpa [Except.map] using heq2
              subst hc
              rw [validatePairingCode_ok_val c u hv] at hv
              exact hv

/-! ## Preservation of `expires_at` by the pairing operations -/

theorem find_expires_insert (d : List (String × PairingRequest)) (q : String)
    (u w : PairingRequest) (hq : dictFind? d q = some u)
    (hw : w.expires_at = u.expires_at) (p : String) (info : PairingRequest)
    (hp : dictFind? d p = some info) :
    (dictFind? (dictInsert d q w) p).map PairingRequest.expires_at =
      some info.expires_at := by
  rw [dictFind?_insert]
  by_cases h : q = p
  · subst h
    rw [if_pos rfl]
    rw [hq] at hp
    have h2 := Option.some.inj hp
    subst h2
    simp [hw]
  · rw [if_neg h, hp]
    rfl

theorem verify_preserves_expires (m : PairingManager) (q code : String)
    (t : Nat) (p : String) (info : PairingRequest)
    (hp : dictFind? m.pairing_codes p = some info) :
    (dictFind? (verifyPairingCode m q code t).2.pairing_codes p).map
      PairingRequest.expires_at = some info.expires_at := by
  unfold verifyPairingCode
  split
  · simp [hp]
  · next u hq =>
    split
    · exact find_expires_insert _ q u ({ u with status := "expired" }) hq rfl
        p info hp
    · split
      · simp [hp]
      · dsimp only
        split
        · simp [hp]
        · exact find_expires_insert _ q u
            ({ u with status := "verified", verified_at := some t }) hq rfl
            p info hp

theorem complete_preserves_expires (m : PairingManager) (q : String)
    (t loopT : Nat) (p : String) (info : PairingRequest)
    (hp : dictFind? m.pairing_codes p = some info) :
    (dictFind? (completePairing m q t loopT).2.pairing_codes p).map
      PairingRequest.expires_at = some info.expires_at := by
  unfold completePairing
  split
  · simp [hp]
  · next u hq =>
    split
    · simp [hp]
    · exact find_expires_insert _ q u
        ({ u with status := "completed", completed_at := some t,
                  auth_tokens := some ({ auth_token := "auth_" ++ Nat.repr loopT,
                                         device_id := "device_" ++ Nat.repr loopT,
                                         phone_number := u.number }) })
        hq rfl p info hp

theorem revoke_preserves_expires (m : PairingManager) (q : String) (t : Nat)
    (p : String) (info : PairingRequest)
    (hp : dictFind? m.pairing_codes p = some info) :
    (dictFind? (revokePairing m q t).2.pairing_codes p).map
      PairingRequest.expires_at = some info.expires_at := by
  unfold revokePairing
  split
  · simp [hp]
  · next u hq =>
    exact find_expires_insert _ q u
      ({ u with status := "revoked", revoked_at := some t }) hq rfl p info hp

theorem getStatus_preserves_expires (m : PairingManager) (q : String) (t : Nat)
    (p : String) (info : PairingRequest)
    (hp : dictFind? m.pairing_codes p = some info) :
    (dictFind? (getPairingStatus m q t).2.pairing_codes p).map
      PairingRequest.expires_at = some info.expires_at := by
  unfold getPairingStatus
  split
  · simp [hp]
  · next u hq =>
    split
    · exact find_expires_insert _ q u ({ u with status := "expired" }) hq rfl
        p info hp
    · simp [hp]

theorem cleanup_list_preserves_expires
    (l : List (String × PairingRequest)) (t : Nat) (p : String)
    (info : PairingRequest) (hp : dictFind? l p = some info) :
    (dictFind? (l.map fun kv =>
        if (kv.2.status = "requested" ∨ kv.2.status = "verified") ∧
            kv.2.expires_at < t then
          (kv.1, { kv.2 with status := "expired" })
        else kv) p).map PairingRequest.expires_at = some info.expires_at := by
  induction l with
  | nil => simp [dictFind?] at hp
  | cons hd tl ih =>
    obtain ⟨k, v⟩ := hd
    rw [dictFind?] at hp
    simp only [List.map_cons]
    by_cases hcond : (v.status = "requested" ∨ v.status = "verified") ∧
        v.expires_at < t
    · rw [if_pos hcond, dictFind?]
      by_cases hk : k = p
      · rw [if_pos hk]
        rw [if_pos hk] at hp
        have h2 := Option.some.inj hp
        subst h2
        rfl
      · rw [if_neg hk]
        rw [if_neg hk] at hp
        exact ih hp
    · rw [if_neg hcond, dictFind?]
      by_cases hk : k = p
      · rw [if_pos hk]
        rw [if_pos hk] at hp
        have h2 := Option.some.inj hp
        subst h2
        rfl
      · rw [if_neg hk]
        rw [if_neg hk] at hp
        exact ih hp

theorem cleanup_preserves_expires (m : PairingManager) (t : Nat) (p : String)
    (info : PairingRequest) (hp : dictFind? m.pairing_codes p = some info) :
    (dictFind? (cleanupExpiredCodes m t).pairing_codes p).map
      PairingRequest.expires_at = some info.expires_at := by
  unfold cleanupExpiredCodes
  exact cleanup_list_preserves_expires m.pairing_codes t p info hp

theorem waitForAuthentication_timeout (timeout : Nat) (sid : Option String) :
    ∀ elapsed, waitForAuthentication timeout elapsed sid =
      { success := false, error := some "Authentication timeout" } := by
  have key : ∀ k elapsed, timeout - elapsed ≤ k →
      waitForAuthentication timeout elapsed sid =
        { success := false, error := some "Authentication timeout" } := by
    intro k
    induction k with
    | zero =>
      intro e he
      rw [waitForAuthentication]
      have hnlt : ¬ e < timeout := by omega
      simp [hnlt]
    | succ k ih =>
      intro e he
      rw [waitForAuthentication]
      by_cases hlt : e < timeout
      · simpa [hlt, checkAuthStatus] using ih (e + 2) (by omega)
      · simp [hlt]
  exact fun elapsed => key (timeout - elapsed) elapsed le_rfl

theorem revokePairing_ok (m : PairingManager) (pid : String) (now : Nat)
    (info : PairingRequest)
    (h : dictFind? m.pairing_codes pid = some info) :
    revokePairing m pid now =
      (.ok { status := "revoked", pairing_id := pid, number := info.number,
             timestamp := now },
       { m with
         pairing_codes :=
           dictInsert m.pairing_codes pid
             ({ info with status := "revoked", revoked_at := some now }) }) := by
  unfold revokePairing
  simp only [h]

theorem validatePairingCode_error_of_bad (code : String)
    (hbad : code.length < 4 ∨
      ((cleanPairingCode code).data.all fun c => validChars.contains c) =
        false) :
    ∃ msg, validatePairingCode code = .error (.invalidPairingCode msg) := by
  unfold validatePairingCode
  by_cases h4 : code.length < 4
  · exact ⟨_, by rw [if_pos h4]⟩
  · rcases hbad with h | h
    · exact absurd h h4
    · refine ⟨"Pairing code must contain only characters A-F", ?_⟩
      rw [if_neg h4]
      dsimp only
      rw [if_neg (by rw [h]; decide)]

theorem requestPairingCode_error_of_invalid (m : PairingManager)
    (number code : String) (now loopT : Nat) (pick : Nat → Fin 6)
    (msg : String) (hc0 : code ≠ "")
    (hnum1 : number.data.all (fun c => c.isWhitespace) = false)
    (hnum2 : ¬ (String.mk (number.data.filter Char.isDigit)).length < 8)
    (hv : validatePairingCode code = .error (.invalidPairingCode msg)) :
    requestPairingCode m number (some code) now loopT pick =
      (.error (.invalidPairingCode msg), m) := by
  unfold requestPairingCode
  rw [if_neg (by simp [hnum1])]
  dsimp only
  rw [if_neg hnum2]
  split
  · next e heq =>
    have heq2 : (if code = "" then Except.ok (generatePairingCode pick)
        else Except.map (fun _ => code) (validatePairingCode code)) =
        Except.error e := heq
    rw [if_neg hc0, hv] at heq2
    simp only [Except.map] at heq2
    cases heq2
    rfl
  · next code2 heq =>
    have heq2 : (if code = "" then Except.ok (generatePairingCode pick)
        else Except.map (fun _ => code) (validatePairingCode code)) =
        Except.ok code2 := heq
    rw [if_neg hc0, hv] at heq2
    exact absurd heq2 (by simp [Except.map])

theorem requestPairingCode_empty_code (m : PairingManager) (number : String)
    (now loopT : Nat) (pick : Nat → Fin 6) :
    requestPairingCode m number (some "") now loopT pick =
      requestPairingCode m number none now loopT pick := rfl

theorem verifyPairingCode_error_of_invalid (m : PairingManager)
    (pid code : String) (t : Nat) (info : PairingRequest) (msg : String)
    (hfind : dictFind? m.pairing_codes pid = some info)
    (hexp : ¬ info.expires_at < t)
    (hv : validatePairingCode code = .error (.invalidPairingCode msg)) :
    verifyPairingCode m pid code t = (.error (.invalidPairingCode msg), m) := by
  unfold verifyPairingCode
  simp only [hfind]
  rw [if_neg hexp, hv]

/-! ## Claims -/

/-- Claim C1: for every phone number accepted by `requestPairingCode`,
verifying the returned pairing code against the returned pairing id at any
time strictly before the request's `expires_at` succeeds: it returns
status `verified` and persists status `verified` into the store.  The
statement covers both the generated-code path (`codeArg = none`) and any
accepted custom code (`codeArg = some c`, hyphenated or lower-case),
because verification strips hyphens and upper-cases both sides before
comparing. -/
theorem request_verify_roundtrip
    (m m2 : PairingManager) (number : String) (codeArg : Option String)
    (now loopTime t : Nat) (pick : Nat → Fin 6) (r : RequestResult)
    (hreq : requestPairingCode m number codeArg now loopTime pick = (.ok r, m2))
    (ht : t < calculateExpiry now) :
    (verifyPairingCode m2 r.pairing_id r.pairing_code t).1 =
      .ok { status := "verified", pairing_id := r.pairing_id,
            number := r.number, timestamp := t } ∧
    (dictFind? (verifyPairingCode m2 r.pairing_id r.pairing_code t).2.pairing_codes
        r.pairing_id).map PairingRequest.status = some "verified" := by
  obtain ⟨-, hid, -, hval, hm2⟩ :=
    requestPairingCode_ok_spec m number codeArg now loopTime pick r m2 hreq
  subst hm2
  rw [hid]
  have hfind := dictFind?_insert_self m.pairing_codes
    ("pair_" ++ Nat.repr loopTime)
    ({ pairing_id := "pair_" ++ Nat.repr loopTime, number := r.number,
       code := r.pairing_code, status := "requested", requested_at := now,
       expires_at := calculateExpiry now })
  have hexp : ¬ calculateExpiry now < t := by omega
  rw [verifyPairingCode_ok _ ("pair_" ++ Nat.repr loopTime) r.pairing_code t
    _ hfind hexp hval]
  refine ⟨rfl, ?_⟩
  rw [dictFind?_insert_self]
  rfl

/-- Witness for Claim C1 at a concrete custom lower-case hyphenated code. -/
theorem request_verify_roundtrip_witness :
    requestPairingCode {} "15551234567" (some "ab-cd") 0 7 pick0 =
      (.ok { status := "requested", pairing_id := "pair_7",
             number := "15551234567", pairing_code := "ab-cd",
             timestamp := 0 }, mgrRequested) ∧
    100 < calculateExpiry 0 ∧
    ((verifyPairingCode mgrRequested "pair_7" "ab-cd" 100).1 =
      .ok { status := "verified", pairing_id := "pair_7",
            number := "15551234567", timestamp := 100 } ∧
     (dictFind? (verifyPairingCode mgrRequested "pair_7" "ab-cd"
        100).2.pairing_codes "pair_7").map PairingRequest.status =
      some "verified") :=
  ⟨by decide, by decide,
   request_verify_roundtrip {} mgrRequested "15551234567" (some "ab-cd") 0 7
     100 pick0
     { status := "requested", pairing_id := "pair_7", number := "15551234567",
       pairing_code := "ab-cd", timestamp := 0 }
     (by decide) (by decide)⟩

/-- Claim C3: `completePairing` fails with `NotFound` on an unknown id,
fails with `InvalidState` whenever the stored status is anything other
than exactly `verified`, and on a `verified` request succeeds: it returns
status `completed`, stamps `completed_at`, stores the generated
`auth_tokens`, and creates an `ActivePairing` record keyed by the newly
generated device id `device_<loopTime>`. -/
theorem completePairing_state_gate (m : PairingManager) (pid : String)
    (now loopT : Nat) :
    (dictFind? m.pairing_codes pid = none →
      completePairing m pid now loopT = (.error (.notFound pid), m)) ∧
    (∀ info, dictFind? m.pairing_codes pid = some info →
      info.status ≠ "verified" →
      completePairing m pid now loopT = (.error .invalidState, m)) ∧
    (∀ info, dictFind? m.pairing_codes pid = some info →
      info.status = "verified" →
      (completePairing m pid now loopT).1 =
        .ok { status := "completed", pairing_id := pid,
              device_id := "device_" ++ Nat.repr loopT,
              phone_number := info.number,
              auth_tokens := { auth_token := "auth_" ++ Nat.repr loopT,
                               device_id := "device_" ++ Nat.repr loopT,
                               phone_number := info.number },
              timestamp := now } ∧
      dictFind? (completePairing m pid now loopT).2.pairing_codes pid =
        some ({ info with
                status := "completed", completed_at := some now,
                auth_tokens :=
                  some ({ auth_token := "auth_" ++ Nat.repr loopT,
                          device_id := "device_" ++ Nat.repr loopT,
                          phone_number := info.number }) }) ∧
      dictFind? (completePairing m pid now loopT).2.active_pairings
          ("device_" ++ Nat.repr loopT) =
        some { device_id := "device_" ++ Nat.repr loopT,
               phone_number := info.number, paired_at := now,
               auth_token := "auth_" ++ Nat.repr loopT, pairing_id := pid }) := by
  refine ⟨?_, ?_, ?_⟩
  · intro h
    unfold completePairing
    rw [h]
  · intro info h hs
    unfold completePairing
    simp only [h]
    rw [if_pos hs]
  · intro info h hs
    unfold completePairing
    simp only [h]
    rw [if_neg (by simp [hs])]
    exact ⟨rfl, dictFind?_insert_self _ _ _, dictFind?_insert_self _ _ _⟩

/-- Witness for Claim C3: completing a concrete `verified` request. -/
theorem completePairing_state_gate_witness :
    (completePairing mgrVerified "pair_9" 50 77).1 =
      .ok { status := "completed", pairing_id := "pair_9",
            device_id := "device_" ++ Nat.repr 77,
            phone_number := reqVerified.number,
            auth_tokens := { auth_token := "auth_" ++ Nat.repr 77,
                             device_id := "device_" ++ Nat.repr 77,
                             phone_number := reqVerified.number },
            timestamp := 50 } ∧
    dictFind? (completePairing mgrVerified "pair_9" 50 77).2.pairing_codes
        "pair_9" =
      some ({ reqVerified with
              status := "completed", completed_at := some 50,
              auth_tokens :=
                some ({ auth_token := "auth_" ++ Nat.repr 77,
                        device_id := "device_" ++ Nat.repr 77,
                        phone_number := reqVerified.number }) }) ∧
    dictFind? (completePairing mgrVerified "pair_9" 50 77).2.active_pairings
        ("device_" ++ Nat.repr 77) =
      some { device_id := "device_" ++ Nat.repr 77,
             phone_number := reqVerified.number, paired_at := 50,
             auth_token := "auth_" ++ Nat.repr 77, pairing_id := "pair_9" } :=
  (completePairing_state_gate mgrVerified "pair_9" 50 77).2.2 reqVerified
    (by decide) (by decide)

/-- Claim C6: `revokePairing` fails with `NotFound` on an unknown id, and
for every known id it succeeds regardless of the current status (even
`completed`), setting status `revoked`; a second call on the same id
succeeds again without raising and leaves status `revoked` both times. -/
theorem revokePairing_idempotent (m : PairingManager) (pid : String)
    (now1 now2 : Nat) :
    (dictFind? m.pairing_codes pid = none →
      revokePairing m pid now1 = (.error (.notFound pid), m)) ∧
    (∀ info, dictFind? m.pairing_codes pid = some info →
      (revokePairing m pid now1).1 =
        .ok { status := "revoked", pairing_id := pid, number := info.number,
              timestamp := now1 } ∧
      dictFind? (revokePairing m pid now1).2.pairing_codes pid =
        some ({ info with status := "revoked", revoked_at := some now1 }) ∧
      (revokePairing (revokePairing m pid now1).2 pid now2).1 =
        .ok { status := "revoked", pairing_id := pid, number := info.number,
              timestamp := now2 } ∧
      dictFind?
          (revokePairing (revokePairing m pid now1).2 pid now2).2.pairing_codes
          pid =
        some ({ info with status := "revoked", revoked_at := some now2 })) := by
  constructor
  · intro h
    unfold revokePairing
    rw [h]
  · intro info h
    rw [revokePairing_ok m pid now1 info h]
    rw [revokePairing_ok _ pid now2 _ (dictFind?_insert_self _ _ _)]
    exact ⟨rfl, dictFind?_insert_self _ _ _, rfl, dictFind?_insert_self _ _ _⟩

/-- Witness for Claim C6: revoking a concrete `completed` request twice. -/
theorem revokePairing_idempotent_witness :
    (revokePairing mgrCompleted "pair_3" 11).1 =
      .ok { status := "revoked", pairing_id := "pair_3",
            number := reqCompleted.number, timestamp := 11 } ∧
    dictFind? (revokePairing mgrCompleted "pair_3" 11).2.pairing_codes
        "pair_3" =
      some ({ reqCompleted with status := "revoked", revoked_at := some 11 }) ∧
    (revokePairing (revokePairing mgrCompleted "pair_3" 11).2 "pair_3" 12).1 =
      .ok { status := "revoked", pairing_id := "pair_3",
            number := reqCompleted.number, timestamp := 12 } ∧
    dictFind? (revokePairing (revokePairing mgrCompleted "pair_3" 11).2
        "pair_3" 12).2.pairing_codes "pair_3" =
      some ({ reqCompleted with status := "revoked", revoked_at := some 12 }) :=
  (revokePairing_idempotent mgrCompleted "pair_3" 11 12).2 reqCompleted
    (by decide)

/-- Claim C10: `verifyPairingCode` never inspects the stored status, only
the expiry.  For every stored request that has not expired — whatever its
status, including `revoked` and `completed` — supplying the correct code
succeeds and sets the status (back) to `verified`, refreshing
`verified_at`. -/
theorem verify_ignores_status (m : PairingManager) (pid code : String)
    (now : Nat) (info : PairingRequest)
    (hfind : dictFind? m.pairing_codes pid = some info)
    (hexp : ¬ info.expires_at < now)
    (hval : validatePairingCode code = .ok (cleanPairingCode info.code)) :
    (verifyPairingCode m pid code now).1 =
      .ok { status := "verified", pairing_id := pid, number := info.number,
            timestamp := now } ∧
    dictFind? (verifyPairingCode m pid code now).2.pairing_codes pid =
      some ({ info with status := "verified", verified_at := some now }) := by
  rw [verifyPairingCode_ok m pid code now info hfind hexp hval]
  exact ⟨rfl, dictFind?_insert_self _ _ _⟩

/-- Witness for Claim C10: re-verifying a concrete `revoked` request makes
it `verified` again. -/
theorem verify_ignores_status_witness :
    dictFind? mgrRevoked.pairing_codes "pair_5" = some reqRevoked ∧
    ((verifyPairingCode mgrRevoked "pair_5" "ABCD" 20).1 =
      .ok { status := "verified", pairing_id := "pair_5",
            number := reqRevoked.number, timestamp := 20 } ∧
     dictFind? (verifyPairingCode mgrRevoked "pair_5" "ABCD"
        20).2.pairing_codes "pair_5" =
      some ({ reqRevoked with
              status := "verified", verified_at := some 20 })) :=
  ⟨by decide,
   verify_ignores_status mgrRevoked "pair_5" "ABCD" 20 reqRevoked
     (by decide) (by decide) (by decide)⟩

/-- Claim C2 counterexample: the claim says that every code path that ends
a call computes `duration = ended_at - answered_at` (with a `start_time`
fallback), so the scenario `start_time = 0`, `answered_at = 5`,
`ended_at = 35` should yield `duration = 30` — but `end_call` computes the
duration from `start_time` even when the call was answered, yielding `35`,
not `30`. -/
theorem endCall_duration_counterexample :
    exampleCall.start_time = 0 ∧
    exampleCall.answered_at = some 5 ∧
    (endCall exampleCallManager "call_1" 35).1 =
      .ok { status := "ended", call_id := "call_1",
            jid := "friend@s.whatsapp.net", duration := 35, timestamp := 35 } ∧
    (dictFind? (endCall exampleCallManager "call_1" 35).2.active_calls
        "call_1").map CallRecord.duration = some (some 35) ∧
    (35 : Int) ≠ 35 - 5 :=
  ⟨rfl, rfl, by decide, by decide, by decide⟩

/-- Claim C2 (amended): only the `call_ended` event handler computes the
duration as `ended_at - answered_at`, falling back to `start_time` when
the call was never answered; the `end_call` operation always computes
`ended_at - start_time`, ignoring `answered_at`.  In the scenario with
`start_time = T0`, `answered_at = T0+5`, `ended_at = T0+35`, the event
handler yields 30 while `end_call` yields 35. -/
theorem call_duration_amended (m : CallManager) (cid : String) (now : Nat)
    (info : CallRecord)
    (hfind : dictFind? m.active_calls cid = some info) :
    (endCall m cid now).1 =
      .ok { status := "ended", call_id := cid, jid := info.jid,
            duration := (now : Int) - (info.start_time : Int),
            timestamp := now } ∧
    dictFind? (handleCallEvent m "call_ended" (some cid) now).active_calls
        cid =
      some ({ info with
              status := "ended", ended_at := some now,
              duration := some ((now : Int) -
                ((info.answered_at.getD info.start_time : Nat) : Int)) }) := by
  constructor
  · unfold endCall
    simp only [hfind]
  · unfold handleCallEvent
    simp only [hfind]
    rw [if_neg (by decide), if_neg (by decide), if_pos (by decide)]
    rcases hA : info.answered_at with _ | a <;>
      simp [hA, dictFind?_insert_self, Option.getD]

/-- Witness for the amended Claim C2 at the scenario call: `end_call`
yields 35 while the `call_ended` event yields 30. -/
theorem call_duration_amended_witness :
    (endCall exampleCallManager "call_1" 35).1 =
      .ok { status := "ended", call_id := "call_1", jid := exampleCall.jid,
            duration := (35 : Int) - (exampleCall.start_time : Int),
            timestamp := 35 } ∧
    dictFind? (handleCallEvent exampleCallManager "call_ended"
        (some "call_1") 35).active_calls "call_1" =
      some ({ exampleCall with
              status := "ended", ended_at := some 35,
              duration := some ((35 : Int) -
                ((exampleCall.answered_at.getD exampleCall.start_time :
                  Nat) : Int)) }) :=
  call_duration_amended exampleCallManager "call_1" 35 exampleCall (by decide)

/-- Claim C4 counterexample: the claim says a custom code whose
hyphen-stripped upper-cased form is shorter than 4 characters is rejected
with `InvalidPairingCode`, but the length check runs on the raw code:
`"A-B-C"` strips to `"ABC"` (length 3) yet is accepted by both validation
and `requestPairingCode`. -/
theorem code_validation_counterexample :
    (cleanPairingCode "A-B-C").length < 4 ∧
    validatePairingCode "A-B-C" = .ok "ABC" ∧
    (requestPairingCode {} "12345678" (some "A-B-C") 0 0 pick0).1 =
      .ok { status := "requested", pairing_id := "pair_0",
            number := "12345678", pairing_code := "A-B-C", timestamp := 0 } :=
  ⟨by decide, by decide, by decide⟩

/-- Claim C4 (amended): if, after stripping hyphens and upper-casing, the
code contains a character outside `{A..F}`, or the raw code (hyphens
included) has length less than 4, then `verifyPairingCode` (on a known
unexpired request) rejects it with `InvalidPairingCode` — not `Mismatch` —
leaving the store unchanged, and `requestPairingCode` (with such a custom
code on an otherwise valid number) rejects it likewise provided the code
is non-empty; the empty custom code is falsy in the source's
`if not code:` and is treated as absent, so `requestPairingCode` then
generates a fresh code exactly as if no code had been supplied.  In
particular `verifyPairingCode(id, "ZZZZZZZZ")` on a `requested` entry
fails with `InvalidPairingCode` and leaves the status at `requested`. -/
theorem invalid_code_rejection_amended (code : String) (m : PairingManager)
    (number pid : String) (now loopT t : Nat) (pick : Nat → Fin 6)
    (info : PairingRequest)
    (hbad : code.length < 4 ∨
      ((cleanPairingCode code).data.all fun c => validChars.contains c) =
        false)
    (hnum1 : number.data.all (fun c => c.isWhitespace) = false)
    (hnum2 : ¬ (String.mk (number.data.filter Char.isDigit)).length < 8)
    (hfind : dictFind? m.pairing_codes pid = some info)
    (hexp : ¬ info.expires_at < t) :
    ∃ msg, validatePairingCode code = .error (.invalidPairingCode msg) ∧
      (code ≠ "" →
        requestPairingCode m number (some code) now loopT pick =
          (.error (.invalidPairingCode msg), m)) ∧
      (code = "" →
        requestPairingCode m number (some code) now loopT pick =
          requestPairingCode m number none now loopT pick) ∧
      verifyPairingCode m pid code t =
        (.error (.invalidPairingCode msg), m) := by
  obtain ⟨msg, hv⟩ := validatePairingCode_error_of_bad code hbad
  refine ⟨msg, hv, ?_, ?_, ?_⟩
  · intro hc0
    exact requestPairingCode_error_of_invalid m number code now loopT pick
      msg hc0 hnum1 hnum2 hv
  · intro hc0
    subst hc0
    exact requestPairingCode_empty_code m number now loopT pick
  · exact verifyPairingCode_error_of_invalid m pid code t info msg hfind
      hexp hv

/-- Witness for the amended Claim C4: the `"ZZZZZZZZ"` scenario on a
concrete `requested` entry. -/
theorem invalid_code_rejection_amended_witness :
    ∃ msg, validatePairingCode "ZZZZZZZZ" =
        .error (.invalidPairingCode msg) ∧
      ("ZZZZZZZZ" ≠ "" →
        requestPairingCode mgrRequested "12345678" (some "ZZZZZZZZ") 0 3
          pick0 = (.error (.invalidPairingCode msg), mgrRequested)) ∧
      ("ZZZZZZZZ" = "" →
        requestPairingCode mgrRequested "12345678" (some "ZZZZZZZZ") 0 3
          pick0 = requestPairingCode mgrRequested "12345678" none 0 3 pick0) ∧
      verifyPairingCode mgrRequested "pair_7" "ZZZZZZZZ" 100 =
        (.error (.invalidPairingCode msg), mgrRequested) :=
  invalid_code_rejection_amended "ZZZZZZZZ" mgrRequested "12345678" "pair_7"
    0 3 100 pick0 reqRequested (by decide) (by decide) (by decide) (by decide)
    (by decide)

/-- Claim C5: a stored request in status `requested` or `verified` whose
`expires_at` lies in the past reports status `expired` on the very next
`getPairingStatus` read and persists that status, without
`cleanupExpiredCodes` having run; moreover `expires_at` is set at creation
to 60 minutes after the request and no operation
(verify/complete/revoke/status read/cleanup) ever changes a stored
request's `expires_at`. -/
theorem expiry_lazy_read_and_fixed (m : PairingManager) (pid : String)
    (now loopT : Nat) :
    (∀ info, dictFind? m.pairing_codes pid = some info →
      (info.status = "requested" ∨ info.status = "verified") →
      info.expires_at < now →
      getPairingStatus m pid now =
        (.ok ({ info with status := "expired" }),
         { m with
           pairing_codes :=
             dictInsert m.pairing_codes pid
               ({ info with status := "expired" }) }) ∧
      (dictFind? (getPairingStatus m pid now).2.pairing_codes pid).map
        PairingRequest.status = some "expired") ∧
    (∀ number codeArg pick r m2,
      requestPairingCode m number codeArg now loopT pick = (.ok r, m2) →
      (dictFind? m2.pairing_codes r.pairing_id).map
        PairingRequest.expires_at = some (calculateExpiry now)) ∧
    (∀ q code t info2, dictFind? m.pairing_codes pid = some info2 →
      (dictFind? (verifyPairingCode m q code t).2.pairing_codes pid).map
        PairingRequest.expires_at = some info2.expires_at ∧
      (dictFind? (completePairing m q t loopT).2.pairing_codes pid).map
        PairingRequest.expires_at = some info2.expires_at ∧
      (dictFind? (revokePairing m q t).2.pairing_codes pid).map
        PairingRequest.expires_at = some info2.expires_at ∧
      (dictFind? (getPairingStatus m q t).2.pairing_codes pid).map
        PairingRequest.expires_at = some info2.expires_at ∧
      (dictFind? (cleanupExpiredCodes m t).pairing_codes pid).map
        PairingRequest.expires_at = some info2.expires_at) := by
  refine ⟨?_, ?_, ?_⟩
  · intro info h hs he
    have hg : getPairingStatus m pid now =
        (.ok ({ info with status := "expired" }),
         { m with
           pairing_codes :=
             dictInsert m.pairing_codes pid
               ({ info with status := "expired" }) }) := by
      unfold getPairingStatus
      simp only [h]
      rw [if_pos ⟨hs, he⟩]
    rw [hg]
    refine ⟨rfl, ?_⟩
    rw [dictFind?_insert_self]
    rfl
  · intro number codeArg pick r m2 hreq
    obtain ⟨-, hid, -, -, hm2⟩ :=
      requestPairingCode_ok_spec m number codeArg now loopT pick r m2 hreq
    subst hm2
    rw [hid]
    rw [dictFind?_insert_self]
    rfl
  · intro q code t info2 h
    exact ⟨verify_preserves_expires m q code t pid info2 h,
           complete_preserves_expires m q t loopT pid info2 h,
           revoke_preserves_expires m q t pid info2 h,
           getStatus_preserves_expires m q t pid info2 h,
           cleanup_preserves_expires m t pid info2 h⟩

/-- Witness for Claim C5: a concrete stale `requested` entry read at time
100 (its `expires_at` is 60). -/
theorem expiry_lazy_read_and_fixed_witness :
    (getPairingStatus mgrStale "pair_2" 100 =
      (.ok ({ reqStale with status := "expired" }),
       { mgrStale with
         pairing_codes :=
           dictInsert mgrStale.pairing_codes "pair_2"
             ({ reqStale with status := "expired" }) }) ∧
     (dictFind? (getPairingStatus mgrStale "pair_2" 100).2.pairing_codes
        "pair_2").map PairingRequest.status = some "expired") ∧
    (dictFind? (verifyPairingCode mgrStale "pair_2" "ABCD" 10).2.pairing_codes
        "pair_2").map PairingRequest.expires_at = some reqStale.expires_at :=
  ⟨(expiry_lazy_read_and_fixed mgrStale "pair_2" 100 0).1 reqStale
     (by decide) (by decide) (by decide),
   ((expiry_lazy_read_and_fixed mgrStale "pair_2" 100 0).2.2 "pair_2" "ABCD"
     10 reqStale (by decide)).1⟩

/-- Claim C7 counterexample: the claim says `ConnectionManager.send_message`
fails with `NotConnected` when the lifecycle state is not `authenticated`,
but the source performs no state check at all: with
`is_authenticated = false` it still forwards to the backend and returns
the canned success result. -/
theorem sendMessage_no_auth_check_counterexample :
    ({ is_authenticated := false } : ConnState).is_authenticated = false ∧
    sendMessageConn { is_authenticated := false } "123@s.whatsapp.net"
      "hello" "text" 9 =
      .ok { status := "success", message_id := "msg_9", timestamp := 9 } ∧
    sendMessageConn { is_authenticated := false } "123@s.whatsapp.net"
      "hello" "text" 9 ≠ .error .notConnected :=
  ⟨rfl, by decide, by decide⟩

/-- Claim C7 (amended): `ConnectionManager.send_message` performs no
connection-state check — for every state, authenticated or not, it
forwards to the Backend Transport and returns the transport result
unchanged; the `NotConnected` failure exists only in
`BaileysClient.send_message` (the `is_connected` flag), and that layer
does not pass the transport result through unchanged: it wraps the
returned message id into a fresh `sent` response. -/
theorem sendMessage_layering_amended (st : ConnState) (jid msg ty : String)
    (t : Nat) (c : ClientState) (conn : ConnState) (jid2 msg2 : String)
    (t2 : Nat) :
    sendMessageConn st jid msg ty t = .ok (communicateWithBackend t) ∧
    (c.is_connected = false →
      clientSendMessage c conn jid2 msg2 t2 = .error .notConnected) ∧
    (c.is_connected = true →
      clientSendMessage c conn jid2 msg2 t2 =
        .ok { status := "sent",
              message_id := (communicateWithBackend t2).message_id,
              timestamp := t2, jid := jid2, content := msg2 }) := by
  refine ⟨rfl, ?_, ?_⟩
  · intro h
    simp [clientSendMessage, h]
  · intro h
    simp [clientSendMessage, h, sendTextMessage, sendMessageConn]

/-- Witness for the amended Claim C7 at concrete states on both sides of
the `is_connected` flag. -/
theorem sendMessage_layering_amended_witness :
    sendMessageConn { is_authenticated := false } "a@s.whatsapp.net" "hi"
      "text" 4 = .ok (communicateWithBackend 4) ∧
    clientSendMessage { is_connected := false } {} "a@s.whatsapp.net" "hi" 4 =
      .error .notConnected ∧
    clientSendMessage { is_connected := true } {} "a@s.whatsapp.net" "hi" 4 =
      .ok { status := "sent",
            message_id := (communicateWithBackend 4).message_id,
            timestamp := 4, jid := "a@s.whatsapp.net", content := "hi" } :=
  ⟨(sendMessage_layering_amended { is_authenticated := false }
      "a@s.whatsapp.net" "hi" "text" 4 { is_connected := false } {}
      "a@s.whatsapp.net" "hi" 4).1,
   (sendMessage_layering_amended { is_authenticated := false }
      "a@s.whatsapp.net" "hi" "text" 4 { is_connected := false } {}
      "a@s.whatsapp.net" "hi" 4).2.1 rfl,
   (sendMessage_layering_amended { is_authenticated := false }
      "a@s.whatsapp.net" "hi" "text" 4 { is_connected := true } {}
      "a@s.whatsapp.net" "hi" 4).2.2 rfl⟩

/-- Claim C8: when no valid stored session exists, the authentication
polling loop never observes `authenticated = true` — the status-check stub
always reports `authenticated: false` with no error — so `connect` never
authenticates via polling and always returns status `auth_failed` with
message "Authentication timeout" once the timeout elapses, for every
configured timeout (default 30, polled in steps of 2). -/
theorem auth_polling_timeout (store : Option AuthData) (sid pc : String)
    (timeout elapsed : Nat) (hstore : loadAuthData store = none) :
    (waitForAuthentication timeout elapsed (some sid)).success = false ∧
    checkAuthStatus.authenticated = false ∧
    connect store sid pc timeout =
      { status := "auth_failed", message := some "Authentication timeout" } := by
  refine ⟨?_, rfl, ?_⟩
  · rw [waitForAuthentication_timeout]
  · unfold connect initializeConnection handleAuthentication
    rw [hstore]
    simp [waitForAuthentication_timeout]

/-- Witness for Claim C8 with no session file and the default timeout. -/
theorem auth_polling_timeout_witness :
    loadAuthData none = none ∧
    ((waitForAuthentication 30 0 (some "sess")).success = false ∧
     checkAuthStatus.authenticated = false ∧
     connect none "sess" "AAAAAAAA" 30 =
       { status := "auth_failed",
         message := some "Authentication timeout" }) :=
  ⟨rfl, auth_polling_timeout none "sess" "AAAAAAAA" 30 0 rfl⟩

/-- Claim C9 counterexample: `pairing_id` is `pair_<int(loop.time())>`, so
two successful requests within the same integer second receive the same
id, and the second request's record replaces the first: after two requests
at loop time 42 the registry holds a single entry for `pair_42`, carrying
the second request's number. -/
theorem pairing_id_collision_counterexample :
    (requestPairingCode {} "12345678" none 0 42 pick0).1 =
      .ok { status := "requested", pairing_id := "pair_42",
            number := "12345678", pairing_code := "AAAAAAAA",
            timestamp := 0 } ∧
    (requestPairingCode (requestPairingCode {} "12345678" none 0 42 pick0).2
        "87654321" none 5 42 pick0).1 =
      .ok { status := "requested", pairing_id := "pair_42",
            number := "87654321", pairing_code := "AAAAAAAA",
            timestamp := 5 } ∧
    (requestPairingCode (requestPairingCode {} "12345678" none 0 42 pick0).2
        "87654321" none 5 42 pick0).2.pairing_codes.length = 1 ∧
    dictFind? (requestPairingCode (requestPairingCode {} "12345678" none 0 42
        pick0).2 "87654321" none 5 42 pick0).2.pairing_codes "pair_42" =
      some { pairing_id := "pair_42", number := "87654321",
             code := "AAAAAAAA", status := "requested", requested_at := 5,
             expires_at := 3605 } :=
  ⟨by decide, by decide, by decide, by decide⟩

/-- Claim C9 (amended): the pairing id is derived from the integer
event-loop timestamp, so two successful `requestPairingCode` calls return
distinct pairing ids exactly when those timestamps differ; with distinct
timestamps the earlier request's record is untouched by the later one,
while a request whose id already exists in the registry replaces that
record in place and does not grow the registry. -/
theorem pairing_id_uniqueness_amended (m m1 m2 : PairingManager)
    (n1 n2 : String) (c1 c2 : Option String) (now1 now2 t1 t2 : Nat)
    (p1 p2 : Nat → Fin 6) (r1 r2 : RequestResult)
    (h1 : requestPairingCode m n1 c1 now1 t1 p1 = (.ok r1, m1))
    (h2 : requestPairingCode m1 n2 c2 now2 t2 p2 = (.ok r2, m2)) :
    (t1 ≠ t2 → r1.pairing_id ≠ r2.pairing_id ∧
      dictFind? m2.pairing_codes r1.pairing_id =
        dictFind? m1.pairing_codes r1.pairing_id) ∧
    (t1 = t2 → r1.pairing_id = r2.pairing_id) ∧
    (dictContains m1.pairing_codes r2.pairing_id = true →
      m2.pairing_codes.length = m1.pairing_codes.length) := by
  obtain ⟨-, hid1, -, -, hm1⟩ :=
    requestPairingCode_ok_spec m n1 c1 now1 t1 p1 r1 m1 h1
  obtain ⟨-, hid2, -, -, hm2⟩ :=
    requestPairingCode_ok_spec m1 n2 c2 now2 t2 p2 r2 m2 h2
  refine ⟨?_, ?_, ?_⟩
  · intro hne
    have hidne : r1.pairing_id ≠ r2.pairing_id := by
      rw [hid1, hid2]
      intro hc
      exact hne (prefixed_repr_inj _ _ _ hc)
    refine ⟨hidne, ?_⟩
    rw [hm2]
    dsimp only
    rw [dictFind?_insert_ne]
    intro hc
    exact hidne (by rw [hid2]; exact hc.symm)
  · intro heqt
    rw [hid1, hid2, heqt]
  · intro hcont
    rw [hid2] at hcont
    rw [hm2]
    dsimp only
    rw [dictInsert_length]
    simp [hcont]

/-- Witness for the amended Claim C9: requests at loop times 42 and 43. -/
theorem pairing_id_uniqueness_amended_witness :
    ("pair_42" : String) ≠ "pair_43" ∧
    dictFind? (requestPairingCode (requestPairingCode {} "12345678" none 0 42
        pick0).2 "87654321" none 5 43 pick0).2.pairing_codes "pair_42" =
      dictFind? (requestPairingCode {} "12345678" none 0 42
        pick0).2.pairing_codes "pair_42" :=
  (pairing_id_uniqueness_amended {}
    (requestPairingCode {} "12345678" none 0 42 pick0).2
    (requestPairingCode (requestPairingCode {} "12345678" none 0 42 pick0).2
      "87654321" none 5 43 pick0).2
    "12345678" "87654321" none none 0 5 42 43 pick0 pick0
    { status := "requested", pairing_id := "pair_42", number := "12345678",
      pairing_code := "AAAAAAAA", timestamp := 0 }
    { status := "requested", pairing_id := "pair_43", number := "87654321",
      pairing_code := "AAAAAAAA", timestamp := 5 }
    (by decide) (by decide)).1 (by decide)

end Baileyspy
